import Mathlib

/-
Verification of the tiled catalog server.

Shallow embedding of the two source files:
  * src/server.py                 (the standalone FastAPI server)
  * src/tiled/server/router.py    (the router-based server)

Python exceptions are modelled with explicit result types; a raised
HTTPException is a value of `HTTPError`; an exception that escapes the route
handler untranslated is the `untranslated` outcome.  External collaborators
(the dask block lookup, the readers, serialization helpers defined in modules
that are not part of the two files above) enter as explicit parameters or are
modelled from the spec where noted.
-/

/-- A raised HTTPException: status code and detail message. -/
structure HTTPError where
  status : Nat
  detail : String
deriving DecidableEq

/-- Result of a Python literal as produced by ast.literal_eval. -/
inductive PyLiteral where
  | int : Int → PyLiteral
  | bool : Bool → PyLiteral
  | str : String → PyLiteral
  | list : List PyLiteral → PyLiteral
  | tuple : List PyLiteral → PyLiteral
  | pyNone : PyLiteral

/-- Python isinstance(x, int); true for bool as well since bool subclasses int. -/
def PyLiteral.isInt : PyLiteral → Bool
  | .int _ => true
  | .bool _ => true
  | _ => false

/-- Python isinstance(x, (tuple, list)). -/
def PyLiteral.isTupleOrList : PyLiteral → Bool
  | .list _ => true
  | .tuple _ => true
  | _ => false

/-- The elements of a tuple or list literal (empty for other literals). -/
def PyLiteral.elems : PyLiteral → List PyLiteral
  | .list xs => xs
  | .tuple xs => xs
  | _ => []

/-- The syntax condition checked by the blob route: the parsed value is a
tuple or list all of whose elements are Python ints. -/
def isIndexLiteral (l : PyLiteral) : Bool :=
  l.isTupleOrList && l.elems.all PyLiteral.isInt

/-- Numeric value of a Python int used for indexing (True counts as 1,
False as 0, matching Python's bool-int identification). -/
def PyLiteral.intValue : PyLiteral → Int
  | .int n => n
  | .bool b => if b then 1 else 0
  | _ => 0

/-- The index the blob route passes to the block lookup: the elements of the
parsed tuple or list, as integers. -/
def litToIndex (l : PyLiteral) : List Int :=
  l.elems.map PyLiteral.intValue

/-- Outcome of the external block lookup `datasource.read().blocks[index]`
(a dask array, an external collaborator): a chunk, an IndexError, or any
other exception. -/
inductive BlockResult (α : Type) where
  | ok : α → BlockResult α
  | indexError : BlockResult α
  | otherError : BlockResult α

/-- A data source as the blob route uses it: its external block lookup. -/
structure DataSource (α : Type) where
  lookup : List Int → BlockResult α

/-- Outcome of a route handler: a response (content plus media type), a
raised HTTPException, or an exception that escapes untranslated. -/
inductive RouteOutcome (α : Type) where
  | ok : α → String → RouteOutcome α
  | clientError : HTTPError → RouteOutcome α
  | untranslated : RouteOutcome α

/-- Media-type selection in the blob route:
`request.headers.get("Accept", "application/octet-stream")`, then the exact
string `*/*` is replaced by `application/octet-stream`. -/
def chosenMediaType (accept : Option String) : String :=
  let mediaType := accept.getD "application/octet-stream"
  if mediaType = "*/*" then "application/octet-stream" else mediaType

/-- An HTTP Accept header carrying an ordered list of acceptable media
types, as the comma-separated header value. -/
def acceptHeaderOfList (types : List String) : String :=
  String.intercalate ", " types

/-- The stage of the blob route after entry lookup: the try/except around the
block lookup (IndexError becomes 422, other exceptions are uncaught), then
media-type selection.  serialize_array (from server_utils, not under src) is
left abstract: the outcome carries the chunk and the chosen media type. -/
def blobLookup (res : BlockResult α) (accept : Option String) : RouteOutcome α :=
  match res with
  | .indexError => .clientError ⟨422, "Block index out of range"⟩
  | .otherError => .untranslated
  | .ok chunk => .ok chunk (chosenMediaType accept)

/-- The /datasource/blob/array route handler (server.py, `blob`) as a function
of: the raw `blocks` string, the result of ast.literal_eval on it (`none`
means the parse raised), the result of get_entry(path) (`none` means KeyError),
and the Accept header. -/
def blob (blocks : String) (parsedBlocks : Option PyLiteral)
    (entry : Option (DataSource α)) (accept : Option String) : RouteOutcome α :=
  match parsedBlocks with
  | none => .clientError ⟨400, "Could not parse " ++ blocks⟩
  | some lit =>
    if isIndexLiteral lit then
      match entry with
      | none => .clientError ⟨404, "No such entry."⟩
      | some ds => blobLookup (ds.lookup (litToIndex lit)) accept
    else
      .clientError ⟨400, "Could not parse " ++ blocks ++ " as an index"⟩

/-- Outcome of serialization / content negotiation
(construct_array_response, defined in tiled/server/core.py which is not under
src): a serialized response or an UnsupportedMediaTypes failure carrying the
supported types. -/
inductive SerResult (α : Type) where
  | ok : α → SerResult α
  | unsupported : List String → SerResult α

/-- Number of blocks along one dimension: ceil(s / c) as the spec computes
it, floor(s/c) plus one when there is a remainder. -/
def numBlocks (s c : Nat) : Nat := (s + c - 1) / c

/-- An array reader as used by the /tile/array route: the shape and chunking
of its data source. -/
structure ArrayReader where
  shape : List Nat
  chunking : List Nat

/-- Errors of the block-addressing collaborator. -/
inductive BlockErr where
  | outOfRange
  | dimMismatch
deriving DecidableEq

/-- Modelled from the spec: reader.read_block (tiled's readers are not under
src).  The spec's validation order: a block index of the wrong dimensionality
is an error distinct from out-of-range; otherwise an index whose any
coordinate is at least ceil(shape[d]/chunking[d]) raises BlockIndexOutOfRange
(an IndexError); otherwise the read succeeds. -/
def read_block (r : ArrayReader) (index : List Nat) : Except BlockErr Unit :=
  if index.length ≠ r.shape.length then .error .dimMismatch
  else if ((r.shape.zip r.chunking).zip index).any
      (fun t => numBlocks t.1.1 t.1.2 ≤ t.2) then .error .outOfRange
  else .ok ()

/-- Outcome of a router.py tile/listing handler. -/
inductive TileOutcome (α : Type) where
  | ok : α → TileOutcome α
  | clientError : HTTPError → TileOutcome α
  | untranslated : TileOutcome α
deriving DecidableEq

/-- The /tile/array route handler (router.py, `tile_array`): IndexError from
the block read becomes 422 "Block index out of range"; the dimensionality
error of the spec model is not an IndexError, so the handler does not catch
it; UnsupportedMediaTypes from serialization becomes 406.  The serialization
outcome `ser` abstracts construct_array_response (not under src). -/
def tile_array (r : ArrayReader) (index : List Nat) (ser : SerResult α) :
    TileOutcome α :=
  match read_block r index with
  | .error .outOfRange => .clientError ⟨422, "Block index out of range"⟩
  | .error .dimMismatch => .untranslated
  | .ok _ =>
    match ser with
    | .unsupported ts => .clientError ⟨406, String.intercalate ", " ts⟩
    | .ok a => .ok a

/-- Errors raised by the dataset / data-array readers (not under src):
KeyError for an unknown variable or coordinate name, IndexError for a block
index out of range. -/
inductive DReadErr where
  | keyError
  | indexError
deriving DecidableEq

/-- A labeled multi-component (xarray.Dataset) reader: its variable names,
its coordinate names, and which block indices are in range. -/
structure DatasetReader where
  varNames : List String
  coords : List String
  blockOk : List Nat → Bool

/-- Modelled from the spec: read_block of the Dataset reader (not under src)
looks up the variable by name (KeyError if absent), then the optional
coordinate name (KeyError if absent), then addresses the block (IndexError
if out of range). -/
def dataset_read_block (r : DatasetReader) (varName : String)
    (block : List Nat) (coord : Option String) : Except DReadErr Unit :=
  if ¬ r.varNames.contains varName then .error .keyError
  else
    match coord with
    | some c =>
      if ¬ r.coords.contains c then .error .keyError
      else if r.blockOk block then .ok () else .error .indexError
    | none => if r.blockOk block then .ok () else .error .indexError

/-- The /tile/dataset route handler (router.py, `tile_dataset`): IndexError
becomes 422 "Block index out of range"; KeyError becomes 422 "No such
variable <variable>." when no coord was supplied, else 422 "No such
coordinate <coord>."; UnsupportedMediaTypes becomes 406. -/
def tile_dataset (r : DatasetReader) (varName : String) (coord : Option String)
    (block : List Nat) (ser : SerResult α) : TileOutcome α :=
  match dataset_read_block r varName block coord with
  | .error .indexError => .clientError ⟨422, "Block index out of range"⟩
  | .error .keyError =>
    match coord with
    | none => .clientError ⟨422, "No such variable " ++ varName ++ "."⟩
    | some c => .clientError ⟨422, "No such coordinate " ++ c ++ "."⟩
  | .ok _ =>
    match ser with
    | .unsupported ts => .clientError ⟨406, String.intercalate ", " ts⟩
    | .ok a => .ok a

/-- The /tile/data_array route handler (router.py, `tile_data_array`) as a
function of the outcome of reader.read_block(block, coord): IndexError
becomes 422; KeyError becomes 422 "No such coordinate <coord>." when a coord
was supplied, and is re-raised bare (untranslated) when coord is None;
UnsupportedMediaTypes becomes 406. -/
def tile_data_array (read : Except DReadErr α) (coord : Option String)
    (ser : α → SerResult β) : TileOutcome β :=
  match read with
  | .error .indexError => .clientError ⟨422, "Block index out of range"⟩
  | .error .keyError =>
    match coord with
    | some c => .clientError ⟨422, "No such coordinate " ++ c ++ "."⟩
    | none => .untranslated
  | .ok a =>
    match ser a with
    | .unsupported ts => .clientError ⟨406, String.intercalate ", " ts⟩
    | .ok b => .ok b

/-- Outcome of construct_entries_response (tiled/server/core.py, not under
src) as the /entries handler consumes it: success, NoEntry,
WrongTypeForRoute (with its message), or UnsupportedMediaTypes. -/
inductive EntriesResult (α : Type) where
  | ok : α → EntriesResult α
  | noEntry : EntriesResult α
  | wrongType : String → EntriesResult α
  | unsupported : List String → EntriesResult α

/-- The /entries route handler (router.py, `entries`) as a function of the
outcome of construct_entries_response: NoEntry becomes 404 "No such entry.",
WrongTypeForRoute becomes 404 with the exception's message,
UnsupportedMediaTypes becomes 406 listing the supported types. -/
def entries_route (res : EntriesResult α) : TileOutcome α :=
  match res with
  | .ok a => .ok a
  | .noEntry => .clientError ⟨404, "No such entry."⟩
  | .wrongType msg => .clientError ⟨404, msg⟩
  | .unsupported ts => .clientError ⟨406, String.intercalate ", " ts⟩

/-- Modelled from the spec: the token store of tiled/server/authentication.py
(not under src).  A token is an opaque credential string associated with a
username. -/
structure TokenStore where
  tokens : List (String × String)
deriving DecidableEq

/-- Modelled from the spec: new_token mints a fresh opaque token for the
username and records it in the store. -/
def new_token (username : String) (s : TokenStore) : String × TokenStore :=
  let t := "token-" ++ toString s.tokens.length
  (t, ⟨(t, username) :: s.tokens⟩)

/-- Modelled from the spec: get_user_for_token looks up the username a token
was minted for. -/
def get_user_for_token (token : String) (s : TokenStore) : Option String :=
  (s.tokens.find? (fun p => p.1 = token)).map Prod.snd

/-- Modelled from the spec: revoke_token removes a token from the store. -/
def revoke_token (token : String) (s : TokenStore) : TokenStore :=
  ⟨s.tokens.filter (fun p => p.1 ≠ token)⟩

/-- The POST /token handler (router.py, `create_token`): when the requested
username differs from the current user and the current user is not "admin",
raise 403 and mint nothing; otherwise mint a token for the username. -/
def create_token (username : String) (currentUser : String) (s : TokenStore) :
    Except HTTPError (String × TokenStore) :=
  if username ≠ currentUser ∧ currentUser ≠ "admin" then
    .error ⟨403, "Only admin can generate tokens for other users."⟩
  else
    .ok (new_token username s)

/-- The DELETE /token handler (router.py, `delete_token`): look up the
token's owner; when the owner differs from the current user and the current
user is not "admin", raise 403 and revoke nothing; otherwise revoke. -/
def delete_token (token : String) (currentUser : String) (s : TokenStore) :
    Except HTTPError TokenStore :=
  let username := get_user_for_token token s
  if username ≠ some currentUser ∧ currentUser ≠ "admin" then
    .error ⟨403, "Only admin can delete other users' tokens."⟩
  else
    .ok (revoke_token token s)

/-- A declared field of a registered query descriptor: its name and the tag
of its declared (annotation) type. -/
structure QField where
  fname : String
  ftype : String
deriving DecidableEq

/-- A query parameter injected into the search route's signature: the
parameter name, its HTTP alias, and its type annotation. -/
structure InjParam where
  pname : String
  queryAlias : String
  annot : String
deriving DecidableEq

/-- The parameter declare_search_route builds for one descriptor field:
name filter___<descriptor>___<field>, alias
filter[<descriptor>][condition][<field>], annotation Optional[field.type]. -/
def mkParam (qname : String) (f : QField) : InjParam :=
  { pname := "filter___" ++ qname ++ "___" ++ f.fname,
    queryAlias := "filter[" ++ qname ++ "][condition][" ++ f.fname ++ "]",
    annot := f.ftype }

/-- The inner loop of declare_search_route: iterate over the descriptor's
fields, rebinding injected_parameter each time; the binding that survives the
loop is the one for the last field (or the previous binding when the
descriptor has no fields). -/
def innerFieldLoop (qname : String) (fields : List QField)
    (lastBound : Option InjParam) : Option InjParam :=
  fields.foldl (fun _ f => some (mkParam qname f)) lastBound

/-- The outer loop of declare_search_route over the registry (insertion
ordered): after each descriptor's field loop, parameters.append runs once, at
the outer level, appending whatever injected_parameter is currently bound;
`none` models the NameError raised when no binding exists yet. -/
def injectLoop : List (String × List QField) → List InjParam →
    Option InjParam → Option (List InjParam)
  | [], acc, _ => some acc
  | (qname, fields) :: rest, acc, lastBound =>
    match innerFieldLoop qname fields lastBound with
    | none => none
    | some p => injectLoop rest (acc ++ [p]) (some p)

/-- The parameters declare_search_route injects into the search route's
signature, given the registry name_to_query_type. -/
def injectedParameters (registry : List (String × List QField)) :
    Option (List InjParam) :=
  injectLoop registry [] none

/-- The arguments a server.py listing route passes to
construct_catalogs_entries_response (server_utils, not under src). -/
structure ListingCall where
  path : String
  offset : Int
  limit : Int
  hasQuery : Bool
  include_metadata : Bool
  include_description : Bool
deriving DecidableEq

/-- The /catalogs/entries/keys route handler (server.py, `keys`). -/
def keys_route (path : String) (offset limit : Int) : ListingCall :=
  ⟨path, offset, limit, false, false, false⟩

/-- The /catalogs/entries/metadata route handler (server.py, `entries`). -/
def entries_metadata_route (path : String) (offset limit : Int) : ListingCall :=
  ⟨path, offset, limit, false, true, false⟩

/-- The /catalogs/entries/description route handler (server.py,
`list_description`): its docstring promises keys, metadata, and data
structure, but it passes include_description=False. -/
def list_description_route (path : String) (offset limit : Int) : ListingCall :=
  ⟨path, offset, limit, false, true, false⟩

/-- Modelled from the spec: the pagination performed inside
construct_catalogs_entries_response (server_utils, not under src): the window
of the ordered children from `offset`, at most `limit` long. -/
def paginate (children : List α) (offset limit : Nat) : List α :=
  (children.drop offset).take limit

/-- Modelled from the spec: the total count reported alongside every window. -/
def paginateTotal (children : List α) : Nat := children.length

/-- Number of pages of size p needed to cover n items: ceil(n / p). -/
def pageCount (n p : Nat) : Nat := (n + p - 1) / p

/-- All successive pages of size p: offset advances by p from 0. -/
def allPages (children : List α) (p : Nat) : List (List α) :=
  (List.range (pageCount children.length p)).map
    (fun i => paginate children (i * p) p)

/-- C1: evaluated at a registry holding one descriptor "comparison" with two
declared fields "key" and "value", declare_search_route injects a parameter
only for the last declared field: parameters.append runs once per descriptor,
after the field loop, so only filter[comparison][condition][value] is bound
and the first field's parameter filter[comparison][condition][key] — which the
claim (and the code's own comment "Add a parameter for each field in each
type of query") requires — is never injected. -/
theorem C1_only_last_field_injected :
    injectedParameters [("comparison", [⟨"key", "str"⟩, ⟨"value", "str"⟩])] =
      some [mkParam "comparison" ⟨"value", "str"⟩] ∧
    (mkParam "comparison" ⟨"value", "str"⟩).queryAlias ≠
      "filter[comparison][condition][key]" ∧
    (mkParam "comparison" ⟨"key", "str"⟩).queryAlias =
      "filter[comparison][condition][key]" := by
  refine ⟨rfl, by decide, rfl⟩

/-- C9: the /catalogs/entries/description handler is extensionally equal to
the /catalogs/entries/metadata handler: for every path, offset and limit both
pass identical arguments to construct_catalogs_entries_response, with
include_description = false, so the description facet is silently omitted —
contrary to the claim and to list_description's own docstring. -/
theorem C9_list_description_equals_entries :
    ∀ (path : String) (offset limit : Int),
      list_description_route path offset limit =
        entries_metadata_route path offset limit ∧
      (list_description_route path offset limit).include_description = false :=
  fun _ _ _ => ⟨rfl, rfl⟩

/-- C7: token minting and revocation are authorized exactly for the token's
owner or for admin.  create_token with a current user that differs from the
requested username and from "admin" fails with 403 and returns no store (so
no token is minted); otherwise it mints a fresh token recorded for the
username.  delete_token on a token owned by a different user fails with 403
and revokes nothing unless the current user is admin; otherwise it revokes
the token. -/
theorem C7_token_authorization :
    ∀ (username currentUser : String) (s : TokenStore),
      (username ≠ currentUser → currentUser ≠ "admin" →
        create_token username currentUser s =
          .error ⟨403, "Only admin can generate tokens for other users."⟩) ∧
      ((username = currentUser ∨ currentUser = "admin") →
        ∃ t s2, create_token username currentUser s = .ok (t, s2) ∧
          s2.tokens = (t, username) :: s.tokens) ∧
      (∀ (token owner : String),
        get_user_for_token token s = some owner →
        (owner ≠ currentUser → currentUser ≠ "admin" →
          delete_token token currentUser s =
            .error ⟨403, "Only admin can delete other users' tokens."⟩) ∧
        ((owner = currentUser ∨ currentUser = "admin") →
          delete_token token currentUser s = .ok (revoke_token token s))) := by
  intro username currentUser s
  refine ⟨?_, ?_, ?_⟩
  · intro h1 h2
    unfold create_token
    rw [if_pos ⟨h1, h2⟩]
  · intro h
    have hn : ¬ (username ≠ currentUser ∧ currentUser ≠ "admin") := by tauto
    unfold create_token
    rw [if_neg hn]
    exact ⟨_, _, rfl, rfl⟩
  · intro token owner howner
    constructor
    · intro h1 h2
      unfold delete_token
      rw [howner, if_pos ⟨by simpa using h1, h2⟩]
    · intro h
      have hn : ¬ (some owner ≠ some currentUser ∧ currentUser ≠ "admin") := by
        rcases h with h | h
        · intro hc; exact hc.1 (by rw [h])
        · intro hc; exact hc.2 h
      unfold delete_token
      rw [howner, if_neg hn]

/-- Witness for C7: minting a token for bob while authenticated as alice
(non-admin) is forbidden with status 403. -/
theorem C7_token_authorization_witness :
    create_token "bob" "alice" ⟨[]⟩ =
      .error ⟨403, "Only admin can generate tokens for other users."⟩ :=
  (C7_token_authorization "bob" "alice" ⟨[]⟩).1 (by decide) (by decide)

/-- C10: the blob route's syntax stage raises status 400 exactly when
literal_eval raised or the parsed value is not a tuple/list all of whose
elements are Python ints (bool included, as a Python int subclass); when the
syntax check passes, the parsed coordinates — negative ones included — are
handed unchanged to the block lookup; in particular the literal [-1, 0]
passes the syntax check and reaches the lookup as [-1, 0]. -/
theorem C10_blob_syntax_check :
    (∀ (blocks : String) (parsed : Option PyLiteral)
       (entry : Option (DataSource Unit)) (accept : Option String),
      (∃ e, blob blocks parsed entry accept = .clientError e ∧ e.status = 400) ↔
        (parsed = none ∨ ∃ lit, parsed = some lit ∧ isIndexLiteral lit = false)) ∧
    (∀ (blocks : String) (lit : PyLiteral) (ds : DataSource Unit)
       (accept : Option String), isIndexLiteral lit = true →
      blob blocks (some lit) (some ds) accept =
        blobLookup (ds.lookup (litToIndex lit)) accept) ∧
    isIndexLiteral (.list [.int (-1), .int 0]) = true ∧
    litToIndex (.list [.int (-1), .int 0]) = [-1, 0] := by
  refine ⟨?_, ?_, rfl, rfl⟩
  · intro blocks parsed entry accept
    constructor
    · rintro ⟨e, he, hst⟩
      match parsed with
      | none => exact Or.inl rfl
      | some lit =>
        refine Or.inr ⟨lit, rfl, ?_⟩
        by_contra hil
        rw [Bool.not_eq_false] at hil
        simp only [blob, hil, if_true] at he
        cases entry with
        | none =>
          simp at he
          rw [← he] at hst
          simp at hst
        | some ds =>
          replace he : blobLookup (ds.lookup (litToIndex lit)) accept =
            .clientError e := he
          cases hds : ds.lookup (litToIndex lit) with
          | ok chunk => rw [hds] at he; simp [blobLookup] at he
          | indexError =>
            rw [hds] at he
            simp [blobLookup] at he
            rw [← he] at hst
            simp at hst
          | otherError => rw [hds] at he; simp [blobLookup] at he
    · rintro (rfl | ⟨lit, rfl, hlit⟩)
      · exact ⟨_, rfl, rfl⟩
      · simp only [blob, hlit, Bool.false_eq_true, if_false]
        exact ⟨_, rfl, rfl⟩
  · intro blocks lit ds accept h
    simp only [blob, h, if_true]

/-- Witness for C10: the negative-coordinate literal [-1, 0] is accepted by
the syntax stage and the lookup is invoked on [-1, 0], so a lookup that
succeeds yields an octet-stream response. -/
theorem C10_blob_syntax_check_witness :
    blob "[-1, 0]" (some (.list [.int (-1), .int 0]))
        (some (⟨fun _ => .ok ()⟩ : DataSource Unit)) none =
      .ok () "application/octet-stream" := by
  have h := C10_blob_syntax_check.2.1 "[-1, 0]" (.list [.int (-1), .int 0])
    (⟨fun _ => .ok ()⟩ : DataSource Unit) none rfl
  rw [h]
  rfl

/-- The external dask array of the C5 scenario: shape (10,10), chunks (4,4),
hence a 3 by 3 block grid.  dask's blocks indexing accepts Python negative
indices within the grid, raises IndexError when given more indices than the
array has dimensions, and raises IndexError for a coordinate outside the
grid. -/
def dask2d : DataSource (List Int) :=
  ⟨fun idx =>
    if 2 < idx.length then .indexError
    else if idx.all (fun i => decide (-3 ≤ i ∧ i < 3)) then .ok idx
    else .indexError⟩

/-- C5 (counterexample): on the blob route a block index of the wrong
dimensionality — (0,0,0) against the 2-dimensional source — produces exactly
the same client error, status 422 with detail "Block index out of range", as
the genuinely out-of-range index (3,0): the dimensionality-mismatch outcome
is not distinguishable from BlockIndexOutOfRange, contrary to the claim. -/
theorem C5_counterexample :
    blob "[0, 0, 0]" (some (.list [.int 0, .int 0, .int 0])) (some dask2d)
        none = .clientError ⟨422, "Block index out of range"⟩ ∧
    blob "[3, 0]" (some (.list [.int 3, .int 0])) (some dask2d) none =
      .clientError ⟨422, "Block index out of range"⟩ := by
  exact ⟨rfl, rfl⟩

/-- C5 (amended): the blob route performs no dimensionality validation of its
own; every client error it raises is the 400 syntax error, the 404 missing
entry error, or the single 422 "Block index out of range" error that covers
every IndexError from the external lookup — so a dimensionality mismatch
surfaced by the lookup as an index error is reported identically to an
out-of-range index, and no distinct dimensionality-mismatch client error
exists. -/
theorem C5_no_distinct_dimension_error :
    ∀ (blocks : String) (parsed : Option PyLiteral)
      (entry : Option (DataSource (List Int))) (accept : Option String)
      (e : HTTPError),
      blob blocks parsed entry accept = .clientError e →
        e.status = 400 ∨ e = ⟨404, "No such entry."⟩ ∨
        e = ⟨422, "Block index out of range"⟩ := by
  intro blocks parsed entry accept e he
  match parsed with
  | none =>
    simp only [blob, RouteOutcome.clientError.injEq] at he
    rw [← he]
    exact Or.inl rfl
  | some lit =>
    by_cases hil : isIndexLiteral lit
    · simp only [blob, hil, if_true] at he
      cases entry with
      | none =>
        simp at he
        rw [← he]
        exact Or.inr (Or.inl rfl)
      | some ds =>
        replace he : blobLookup (ds.lookup (litToIndex lit)) accept =
          .clientError e := he
        cases hds : ds.lookup (litToIndex lit) with
        | ok chunk => rw [hds] at he; simp [blobLookup] at he
        | indexError =>
          rw [hds] at he
          simp [blobLookup] at he
          rw [← he]
          exact Or.inr (Or.inr rfl)
        | otherError => rw [hds] at he; simp [blobLookup] at he
    · rw [Bool.not_eq_true] at hil
      simp only [blob, hil, Bool.false_eq_true, if_false,
        RouteOutcome.clientError.injEq] at he
      rw [← he]
      exact Or.inl rfl

/-- Witness for C5 (amended): the 422 error produced for the out-of-range
index (3,0) on the 2-dimensional source is one of the three enumerated
client errors. -/
theorem C5_no_distinct_dimension_error_witness :
    (⟨422, "Block index out of range"⟩ : HTTPError).status = 400 ∨
    (⟨422, "Block index out of range"⟩ : HTTPError) = ⟨404, "No such entry."⟩ ∨
    (⟨422, "Block index out of range"⟩ : HTTPError) =
      ⟨422, "Block index out of range"⟩ :=
  C5_no_distinct_dimension_error "[3, 0]" (some (.list [.int 3, .int 0]))
    (some dask2d) none ⟨422, "Block index out of range"⟩ (by exact rfl)

/-- C3 (counterexample): a request whose Accept header declares the ordered
acceptable types ["application/unknown", "*/*"] — carried on the wire as the
header value "application/unknown, */*" — is not served in the default
octet-stream encoding: the blob route compares the whole header string
against "*/*" only, so the response's media type is the raw header value. -/
theorem C3_counterexample :
    blob "[0]" (some (.list [.int 0]))
        (some (⟨fun idx => .ok idx⟩ : DataSource (List Int)))
        (some (acceptHeaderOfList ["application/unknown", "*/*"])) =
      .ok [(0 : Int)] "application/unknown, */*" ∧
    "application/unknown, */*" ≠ "application/octet-stream" := by
  exact ⟨rfl, by decide⟩

/-- C3 (amended): when the Accept header is absent or is exactly the
wildcard "*/*" the blob route chooses the default octet-stream encoding, and
every successful block fetch is served with the media type chosenMediaType
computes from the header; but the header "application/unknown, */*" is passed
through verbatim rather than falling back to octet-stream. -/
theorem C3_accept_header_fallback :
    chosenMediaType none = "application/octet-stream" ∧
    chosenMediaType (some "*/*") = "application/octet-stream" ∧
    chosenMediaType (some (acceptHeaderOfList ["application/unknown", "*/*"])) =
      "application/unknown, */*" ∧
    (∀ (blocks : String) (lit : PyLiteral) (ds : DataSource (List Int))
       (accept : Option String) (a : List Int), isIndexLiteral lit = true →
      ds.lookup (litToIndex lit) = .ok a →
      blob blocks (some lit) (some ds) accept = .ok a (chosenMediaType accept)) := by
  refine ⟨rfl, by decide, by decide, ?_⟩
  intro blocks lit ds accept a hlit hok
  simp only [blob, hlit, if_true]
  show blobLookup (ds.lookup (litToIndex lit)) accept = _
  rw [hok]
  rfl

/-- Witness for C3 (amended): a successful block fetch with no Accept header
is served as application/octet-stream. -/
theorem C3_accept_header_fallback_witness :
    blob "[0]" (some (.list [.int 0]))
        (some (⟨fun _ => .ok ([] : List Int)⟩ : DataSource (List Int))) none =
      .ok ([] : List Int) "application/octet-stream" := by
  have h := C3_accept_header_fallback.2.2.2 "[0]" (.list [.int 0])
    (⟨fun _ => .ok ([] : List Int)⟩ : DataSource (List Int)) none [] rfl rfl
  rw [h]
  rfl

/-- The dataset of the C4 scenario: variable "temp" and coordinate "time"
exist; "lat" does not; every block index is in range. -/
def weatherDataset : DatasetReader := ⟨["temp"], ["time"], fun _ => true⟩

/-- C4 (counterexample): requesting variable "missing" (which does not exist)
together with coord "lat" yields the error "No such coordinate lat." — the
handler discriminates only on whether a coord was supplied, so the missing
variable is misreported as a missing coordinate and the message does not name
the variable, contrary to the claim that a request for a nonexistent variable
yields an error naming that variable. -/
theorem C4_counterexample :
    tile_dataset weatherDataset "missing" (some "lat") [0] (SerResult.ok ()) =
      .clientError ⟨422, "No such coordinate lat."⟩ ∧
    "No such coordinate lat." ≠ "No such variable missing." := by
  exact ⟨rfl, by decide⟩

/-- C4 (amended): unknown-component errors on /tile/dataset all carry status
422: an unknown coordinate on an existing variable is reported as "No such
coordinate <coord>."; an unknown variable with no coord supplied is reported
as "No such variable <variable>."; but an unknown variable requested together
with a coord is reported as "No such coordinate <coord>.", naming the
supplied coordinate rather than the missing variable. -/
theorem C4_unknown_component_errors :
    ∀ (r : DatasetReader) (varName c : String) (block : List Nat)
      (ser : SerResult Unit),
      (r.varNames.contains varName = true → r.coords.contains c = false →
        tile_dataset r varName (some c) block ser =
          .clientError ⟨422, "No such coordinate " ++ c ++ "."⟩) ∧
      (r.varNames.contains varName = false →
        tile_dataset r varName none block ser =
          .clientError ⟨422, "No such variable " ++ varName ++ "."⟩) ∧
      (r.varNames.contains varName = false →
        tile_dataset r varName (some c) block ser =
          .clientError ⟨422, "No such coordinate " ++ c ++ "."⟩) := by
  intro r varName c block ser
  refine ⟨?_, ?_, ?_⟩
  · intro hv hc
    have hv2 : varName ∈ r.varNames := by simpa using hv
    have hc2 : c ∉ r.coords := by simpa using hc
    simp [tile_dataset, dataset_read_block, hv2, hc2]
  · intro hv
    have hv2 : varName ∉ r.varNames := by simpa using hv
    simp [tile_dataset, dataset_read_block, hv2]
  · intro hv
    have hv2 : varName ∉ r.varNames := by simpa using hv
    simp [tile_dataset, dataset_read_block, hv2]

/-- Witness for C4 (amended): requesting the existing variable "temp" with
the unknown coordinate "lat" yields status 422 naming "lat". -/
theorem C4_unknown_component_errors_witness :
    tile_dataset weatherDataset "temp" (some "lat") [0] (SerResult.ok ()) =
      .clientError ⟨422, "No such coordinate lat."⟩ := by
  have h := (C4_unknown_component_errors weatherDataset "temp" "lat" [0]
    (SerResult.ok ())).1 (by decide) (by decide)
  rw [h]
  rfl

/-- C6 (counterexample): a KeyError raised by the data-array read when no
coord parameter was supplied is re-raised bare by the /tile/data_array
handler: the raised condition escapes the route handler untranslated,
contrary to the claim that no raised condition propagates as an opaque
failure. -/
theorem C6_counterexample :
    tile_data_array (Except.error DReadErr.keyError) none
        (fun a : Unit => SerResult.ok a) = TileOutcome.untranslated := rfl

/-- C6 (amended): the cited handlers translate every raised condition into a
structured status-plus-message error — NoEntry and WrongTypeForRoute to 404,
IndexError to 422, a KeyError with a coord supplied to 422, and
UnsupportedMediaTypes to 406 — except for exactly one path: /tile/data_array
re-raises a KeyError untranslated when no coord parameter was supplied. -/
theorem C6_boundary_translation :
    (∀ (read : Except DReadErr Unit) (coord : Option String)
       (ser : Unit → SerResult Unit),
      tile_data_array read coord ser = .untranslated ↔
        read = .error .keyError ∧ coord = none) ∧
    (∀ res : EntriesResult Unit, entries_route res ≠ .untranslated) := by
  constructor
  · intro read coord ser
    cases read with
    | error err =>
      cases err with
      | keyError =>
        cases coord with
        | none => simp [tile_data_array]
        | some c => simp [tile_data_array]
      | indexError => simp [tile_data_array]
    | ok a =>
      cases hsa : ser a with
      | ok b => simp [tile_data_array, hsa]
      | unsupported ts => simp [tile_data_array, hsa]
  · intro res
    cases res <;> simp [entries_route]

/-- Witness for C6 (amended): the untranslated outcome occurs at the
KeyError-with-no-coord input. -/
theorem C6_boundary_translation_witness :
    tile_data_array (Except.error DReadErr.keyError) (none : Option String)
      (fun a : Unit => SerResult.ok a) = TileOutcome.untranslated :=
  (C6_boundary_translation.1 (Except.error DReadErr.keyError) none
    (fun a : Unit => SerResult.ok a)).mpr ⟨rfl, rfl⟩

/-- C2: for a data source with coherent shape, chunking and index
dimensionality, the /tile/array route produces the 422 "Block index out of
range" error exactly when some coordinate reaches its per-dimension block
count ceil(shape[d]/chunking[d]) (the coordinates are paired with their
dimensions by zipping); an all-in-range index is served; and for shape
(10,10) with chunking (4,4) — a 3 by 3 block grid — block (2,2) succeeds
while block (3,0) yields the 422 error. -/
theorem C2_block_bounds :
    ∀ (r : ArrayReader) (index : List Nat) (ser : SerResult Unit),
      index.length = r.shape.length →
      r.chunking.length = r.shape.length →
      ((∃ t ∈ (r.shape.zip r.chunking).zip index,
          numBlocks t.1.1 t.1.2 ≤ t.2) ↔
        tile_array r index ser =
          .clientError ⟨422, "Block index out of range"⟩) ∧
      ((∀ t ∈ (r.shape.zip r.chunking).zip index,
          t.2 < numBlocks t.1.1 t.1.2) →
        tile_array r index (SerResult.ok ()) = .ok ()) ∧
      tile_array ⟨[10, 10], [4, 4]⟩ [2, 2] (SerResult.ok ()) = .ok () ∧
      tile_array ⟨[10, 10], [4, 4]⟩ [3, 0] ser =
        .clientError ⟨422, "Block index out of range"⟩ := by
  intro r index ser hlen hchunk
  by_cases hA : ((r.shape.zip r.chunking).zip index).any
      (fun t => numBlocks t.1.1 t.1.2 ≤ t.2) = true
  · have hrb : read_block r index = .error .outOfRange := by
      simp [read_block, hlen, hA]
    refine ⟨?_, ?_, rfl, rfl⟩
    · constructor
      · intro _
        simp [tile_array, hrb]
      · intro _
        rw [List.any_eq_true] at hA
        simpa using hA
    · intro hall
      exfalso
      rw [List.any_eq_true] at hA
      obtain ⟨t, ht, hle⟩ := hA
      have hlt := hall t ht
      simp at hle
      omega
  · have hrb : read_block r index = .ok () := by
      simp [read_block, hlen, hA]
    refine ⟨?_, ?_, rfl, rfl⟩
    · constructor
      · intro hex
        exfalso
        exact hA (List.any_eq_true.mpr (by simpa using hex))
      · intro hco
        exfalso
        cases ser with
        | ok a => simp [tile_array, hrb] at hco
        | unsupported ts => simp [tile_array, hrb] at hco
    · intro _
      simp [tile_array, hrb]

/-- Witness for C2: the out-of-range block (3,0) of the 3 by 3 grid yields
the 422 "Block index out of range" error. -/
theorem C2_block_bounds_witness :
    tile_array ⟨[10, 10], [4, 4]⟩ [3, 0] (SerResult.ok ()) =
      .clientError ⟨422, "Block index out of range"⟩ :=
  (C2_block_bounds ⟨[10, 10], [4, 4]⟩ [3, 0] (SerResult.ok ())
    (by decide) (by decide)).2.2.2

/-- Concatenating the first k pages of size p reproduces the first k * p
children. -/
theorem paginate_flatten_take (xs : List α) (p : Nat) :
    ∀ k, ((List.range k).map (fun i => paginate xs (i * p) p)).flatten =
      xs.take (k * p) := by
  intro k
  induction k with
  | zero => simp [paginate]
  | succ k ih =>
    rw [List.range_succ, List.map_append, List.flatten_append, ih]
    simp only [List.map_cons, List.map_nil, List.flatten_cons,
      List.flatten_nil, List.append_nil, paginate]
    rw [← List.take_add]
    congr 1
    ring

/-- ceil(n / p) pages of size p cover all n items. -/
theorem le_pageCount_mul (n p : Nat) (hp : 0 < p) : n ≤ pageCount n p * p := by
  by_contra h
  push_neg at h
  have h2 : pageCount n p + 1 ≤ (n + p - 1) / p := by
    rw [Nat.le_div_iff_mul_le hp]
    have hb : pageCount n p * p + p ≤ n + p - 1 := by omega
    calc (pageCount n p + 1) * p = pageCount n p * p + p := by ring
      _ ≤ n + p - 1 := hb
  simp only [pageCount] at h2
  omega

/-- C8: pagination windows the ordered children without error or reordering:
the window has exactly min(limit, N - offset) items (truncated subtraction on
naturals realizes max(0, N - offset)); an offset at or beyond N yields the
empty window; a zero limit yields the empty window while the reported total
count stays N; and for any positive page size, concatenating the successive
pages — offset advancing by the page size from 0 — reconstructs the full
ordered child sequence, each child appearing exactly once. -/
theorem C8_pagination :
    ∀ (α : Type) (children : List α) (offset limit p : Nat),
      (paginate children offset limit).length =
        min limit (children.length - offset) ∧
      (children.length ≤ offset → paginate children offset limit = []) ∧
      (paginate children offset 0 = [] ∧
        paginateTotal children = children.length) ∧
      (0 < p → (allPages children p).flatten = children) := by
  intro α children offset limit p
  refine ⟨?_, ?_, ⟨?_, rfl⟩, ?_⟩
  · simp [paginate]
  · intro h
    simp [paginate, List.drop_eq_nil_of_le h]
  · simp [paginate]
  · intro hp
    rw [allPages, paginate_flatten_take]
    exact List.take_of_length_le (le_pageCount_mul children.length p hp)

/-- Witness for C8: on the three-child catalog a, b, c — pages of size 2
reassemble the children, and the window at offset 3 is empty. -/
theorem C8_pagination_witness :
    (allPages ["a", "b", "c"] 2).flatten = ["a", "b", "c"] ∧
    paginate ["a", "b", "c"] 3 5 = ([] : List String) := by
  have h := C8_pagination String ["a", "b", "c"] 3 5 2
  exact ⟨h.2.2.2 (by decide), h.2.1 (by decide)⟩
